import Mathlib

/-!
Verification of the persistence and synchronization engine of the 0GP
practice-management repository, against its natural-language specification.

The development shallowly embeds the relevant Python modules:

* `repo.py` — canonical JSON document store (`_save_dict`, `load_pratica`,
  `save_pratica`, `_atomic_write_text`);
* `salva_tutto.py` — the UI-facing save pipeline (`salva_pratica`,
  `_build_record`);
* `storage_utils.py` — the centralized save pipeline (`save_pratica`);
* `repo_sqlite.py` — the relational mirror (`upsert_pratica`);
* `reindex.py` — the bulk reindexer (`reindex`);
* `retention.py` — snapshot retention (`enforce_retention_for_practice`,
  `_select_newest_per_bucket`);
* `apertura_pratica_popup.py` — identifier collision handling (`salva`,
  `_next_id_for_year`, `_id_exists`);
* `id_registry.py`, `dual_save.py` — atomic temp-file-then-rename writers.

JSON documents are embedded as the inductive type `J`.  The Python
function `json.dumps(obj, sort_keys=True, separators=...)` is injective on JSON
values up to recursive key reordering, so the byte-level comparisons of
canonical serializations performed by the source are modeled as equality
of recursively key-sorted values (`canonicalize`).  Cryptographic hashes
of canonical serializations (sha256) are modeled by the canonical value
itself, i.e. as a collision-free content fingerprint.
-/

/-- Embedded JSON values (the documents of the canonical store). -/
inductive J where
  | null : J
  | str : String → J
  | num : Int → J
  | bool : Bool → J
  | arr : List J → J
  | obj : List (String × J) → J
deriving Repr

mutual
/-- Boolean structural equality on `J` (deriving `DecidableEq` is not
available for this nested inductive, so the instance is built by hand). -/
def jeqb : J → J → Bool
  | .null, .null => true
  | .str a, .str b => a = b
  | .num a, .num b => a = b
  | .bool a, .bool b => a = b
  | .arr xs, .arr ys => jeqbList xs ys
  | .obj xs, .obj ys => jeqbFields xs ys
  | _, _ => false

def jeqbList : List J → List J → Bool
  | [], [] => true
  | x :: xs, y :: ys => jeqb x y && jeqbList xs ys
  | _, _ => false

def jeqbFields : List (String × J) → List (String × J) → Bool
  | [], [] => true
  | (k₁, v₁) :: xs, (k₂, v₂) :: ys => k₁ = k₂ && jeqb v₁ v₂ && jeqbFields xs ys
  | _, _ => false
end

mutual
theorem jeqb_iff : ∀ a b : J, jeqb a b = true ↔ a = b
  | .null, b => by cases b <;> simp [jeqb]
  | .str a, b => by cases b <;> simp [jeqb]
  | .num a, b => by cases b <;> simp [jeqb]
  | .bool a, b => by cases b <;> simp [jeqb]
  | .arr xs, b => by
      cases b <;> simp [jeqb]
      exact jeqbList_iff xs _
  | .obj xs, b => by
      cases b <;> simp [jeqb]
      exact jeqbFields_iff xs _

theorem jeqbList_iff : ∀ a b : List J, jeqbList a b = true ↔ a = b
  | [], b => by cases b <;> simp [jeqbList]
  | x :: xs, b => by
      cases b with
      | nil => simp [jeqbList]
      | cons y ys =>
        simp [jeqbList, Bool.and_eq_true, jeqb_iff x y, jeqbList_iff xs ys]

theorem jeqbFields_iff : ∀ a b : List (String × J), jeqbFields a b = true ↔ a = b
  | [], b => by cases b <;> simp [jeqbFields]
  | (k₁, v₁) :: xs, b => by
      cases b with
      | nil => simp [jeqbFields]
      | cons y ys =>
        obtain ⟨k₂, v₂⟩ := y
        simp only [jeqbFields, Bool.and_eq_true, jeqb_iff v₁ v₂, jeqbFields_iff xs ys,
          decide_eq_true_eq, List.cons.injEq, Prod.mk.injEq]
end

instance : DecidableEq J := fun a b =>
  decidable_of_iff (jeqb a b = true) (jeqb_iff a b)

/-- A JSON object body: an association list of fields, in insertion order
(Python dicts preserve insertion order). -/
abbrev Doc := List (String × J)

/-- `d.get(k)`: first binding of key `k`, if any. -/
def jlookup (k : String) : Doc → Option J
  | [] => none
  | (k₂, v) :: rest => if k₂ = k then some v else jlookup k rest

/-- Key order used by `json.dumps(sort_keys=True)`: lexicographic on code
points. -/
def charListLe : List Char → List Char → Bool
  | [], _ => true
  | _ :: _, [] => false
  | a :: as, b :: bs =>
      if a.toNat = b.toNat then charListLe as bs
      else a.toNat < b.toNat

def keyLe (a b : String) : Bool := charListLe a.data b.data

/-- Insertion step of the stable key sort. -/
def insSorted (p : String × J) : List (String × J) → List (String × J)
  | [] => [p]
  | q :: qs => if keyLe p.1 q.1 then p :: q :: qs else q :: insSorted p qs

/-- Sort the fields of one object level by key. -/
def sortFields (l : List (String × J)) : List (String × J) := l.foldr insSorted []

mutual
/-- Recursively sort all object keys: the value-level image of the canonical
serialization `json.dumps(obj, sort_keys=True)` (`repo._canonical_json`,
`reindex` hashing).  Serialization is injective on JSON values, so two
documents have byte-identical canonical serializations iff their
`canonicalize` images are equal. -/
def canonicalize : J → J
  | .null => .null
  | .str s => .str s
  | .num n => .num n
  | .bool b => .bool b
  | .arr xs => .arr (canonList xs)
  | .obj fs => .obj (sortFields (canonFields fs))

def canonList : List J → List J
  | [] => []
  | x :: xs => canonicalize x :: canonList xs

def canonFields : List (String × J) → List (String × J)
  | [] => []
  | (k, v) :: fs => (k, canonicalize v) :: canonFields fs
end

/-- `repo._canonical_json` of a document (value form of the canonical
serialization string). -/
def canonical_json (d : Doc) : J := canonicalize (.obj d)

/-- Python truthiness of a `.get` result (used for `or` defaults and for
`1 if x else 0` conversions in `repo_sqlite.upsert_pratica`). -/
def jTruthy : Option J → Bool
  | none => false
  | some .null => false
  | some (.str s) => s ≠ ""
  | some (.num n) => n ≠ 0
  | some (.bool b) => b
  | some (.arr xs) => ¬ xs.isEmpty
  | some (.obj fs) => ¬ fs.isEmpty

/-- Python `a or b` on two `.get` results. -/
def jOr (a b : Option J) : Option J := if jTruthy a then a else b

/-- Python whitespace (for `str.strip()`). -/
def isPySpace (c : Char) : Bool :=
  c.toNat = 32 || c.toNat = 9 || c.toNat = 10 || c.toNat = 13 ||
  c.toNat = 11 || c.toNat = 12

/-- Python `s.strip()`. -/
def pyStrip (s : String) : String :=
  ⟨((s.data.dropWhile isPySpace).reverse.dropWhile isPySpace).reverse⟩

/-! ## Canonical Document Store (`repo.py`) -/

/-- One line of `history.jsonl` (`history.append_history`): timestamp, actor,
action, and the before/after states from which the hashes and the unified
diff are computed. -/
structure HistEntry where
  ts : String
  actor : String
  action : String
  before : Option Doc
  after : Doc
deriving Repr, DecidableEq

/-- The per-practice storage state: the content of `pratica.json` (if the
file exists) and the append-only `history.jsonl`. -/
structure FileState where
  content : Option Doc
  history : List HistEntry
deriving Repr, DecidableEq

/-- Python `d.setdefault(k, v)`: insert `(k, v)` at the end iff `k` is
absent. -/
def setdefaultDoc (d : Doc) (k : String) (v : J) : Doc :=
  match jlookup k d with
  | some _ => d
  | none => d ++ [(k, v)]

namespace Repo

/-- `repo._save_dict` (the body under the lock): read the existing document,
default `updated_at` to the current time if absent, skip write and history
append when the canonical serializations of old and new coincide, otherwise
write atomically and append one history entry. -/
def save_dict (now actor : String) (st : FileState) (after0 : Doc) : FileState :=
  let after := setdefaultDoc after0 "updated_at" (.str now)
  match st.content with
  | none =>
      { content := some after
        history := st.history ++ [⟨now, actor, "save_pratica", none, after⟩] }
  | some before =>
      if canonical_json before = canonical_json after then st
      else
        { content := some after
          history := st.history ++ [⟨now, actor, "save_pratica", some before, after⟩] }

/-- Outcome of `repo.load_pratica`. -/
inductive LoadResult where
  | ok (d : Doc)
  | errNotFound
  | errParse
deriving Repr, DecidableEq

/-- `repo.load_pratica`: raise `FileNotFoundError` when `pratica.json` is
absent, raise `ValueError` when its bytes do not parse as JSON, otherwise
return the parsed document (which is then handed to the `Pratica`
constructor).  The file system is abstracted to the optional raw content of
`pratica.json`, and the JSON parser is a parameter of the embedding. -/
def load_pratica (parse : String → Option Doc) (file : Option String) : LoadResult :=
  match file with
  | none => .errNotFound
  | some bytes =>
      match parse bytes with
      | none => .errParse
      | some data => .ok data

/-- The `Pratica` model actually available (`models.py`):
`models_pydantic` exposes no `Pratica`, so the import in `models.py`
falls back to a dataclass with exactly these three fields — in
particular there is no `updated_at` attribute and no `model_dump`
method. -/
structure Pratica where
  id_pratica : String
  nome_pratica : String
  percorso_pratica : String
deriving Repr, DecidableEq

/-- `str(pratica)` for the fallback dataclass: its repr string.  (The
quote characters that Python places around the field values are omitted
from this model; nothing below depends on the exact characters, only on
the result being a string rather than a mapping.) -/
def reprPratica (p : Pratica) : String :=
  "Pratica(id_pratica=" ++ p.id_pratica ++ ", nome_pratica=" ++ p.nome_pratica ++
    ", percorso_pratica=" ++ p.percorso_pratica ++ ")"

/-- The serialization `repo.save_pratica` actually performs for the
fallback dataclass: `pratica.model_dump(mode="json")` raises
`AttributeError`, and the generic fallback
`json.loads(json.dumps(pratica, default=lambda o: getattr(o, "dict",
lambda: str(o))()))` serializes the object via `str(o)` — the result is
a JSON string, not an object. -/
def fallback_dump (p : Pratica) : J := J.str (reprPratica p)

/-- Outcome of a call to `repo.save_pratica`. -/
inductive SaveOutcome where
  | written (st : FileState)
  | valueError
deriving Repr, DecidableEq

/-- `repo._save_dict` as reached with a dynamically typed `after` value:
`after = dict(after)` succeeds only when `after` is a mapping; for any
other value — such as the string produced by the fallback serialization —
it raises `ValueError`, which propagates out of the save before anything
is written. -/
def save_dict_dyn (now actor : String) (st : FileState) (after0 : J) : SaveOutcome :=
  match after0 with
  | .obj fields => .written (save_dict now actor st fields)
  | _ => .valueError

/-- `repo.save_pratica` on the only `Pratica` type in the repository:
the `hasattr(pratica, "updated_at")` guard is false (the dataclass has no
such attribute), so no stamping occurs; the fallback serialization yields
the repr string; `_save_dict` then raises `ValueError` at `dict(after)`
and nothing is written. -/
def save_pratica (now actor : String) (p : Pratica) (st : FileState) : SaveOutcome :=
  save_dict_dyn now actor st (fallback_dump p)

end Repo

/-! ## UI-facing save pipeline (`salva_tutto.py`) -/

namespace SalvaTutto

/-- `salva_tutto._txt`: `''` for `None`, else `str(v).strip()`.  (The
list/dict cases never occur at the call sites; they are rendered as `""`.) -/
def txt : Option J → String
  | none => ""
  | some .null => ""
  | some (.str s) => pyStrip s
  | some (.num n) => toString n
  | some (.bool b) => if b then "True" else "False"
  | some (.arr _) => ""
  | some (.obj _) => ""

/-- `a or dflt` on a `.get` result, forced to a value. -/
def jOrD (a : Option J) (dflt : J) : J :=
  if jTruthy a then a.getD dflt else dflt

/-- `salva_tutto._build_record`: assemble the record written as the
canonical document.  The three monetary totals are computed by Python
float arithmetic (`_somma_tariffe_sezione` + `_somma_tabelle_sezione`);
they are abstracted here as the opaque values `totC`, `totS`, `totG`. -/
def build_record (now : String) (pd ad : Doc) (totC totS totG : J) : Doc :=
  let tipoTariffe : J :=
    match jOrD (jlookup "tipo_tariffe" pd) (.arr []) with
    | .arr xs => .arr ((xs.map (fun t => J.str (txt (some t)))).filter (fun v => v ≠ J.str ""))
    | _ => .arr []
  let avvRef := jOr (jlookup "avvocato_referente" pd) (jlookup "avv_referente" pd)
  let avvMand : J :=
    match jOrD (jOr (jlookup "avvocato_in_mandato" pd) (jlookup "avv_mandato" pd)) (.arr []) with
    | .arr xs => .arr ((xs.map (fun t => J.str (txt (some t)))).filter (fun v => v ≠ J.str ""))
    | _ => .arr []
  [("id_pratica", .str (txt (jlookup "id_pratica" pd))),
   ("nome_pratica", .str (txt (jlookup "nome_pratica" pd))),
   ("percorso_pratica", .str (txt (jlookup "percorso_pratica" pd))),
   ("data_apertura", .str (txt (jlookup "data_apertura" pd))),
   ("data_chiusura", .str (txt (jlookup "data_chiusura" pd))),
   ("valore_pratica", .str (txt (jlookup "valore_pratica" pd))),
   ("tipo_pratica", .str (txt (jlookup "tipo_pratica" pd))),
   ("settore_pratica", .str (txt (jlookup "settore_pratica" pd))),
   ("materia_pratica", .str (txt (jlookup "materia_pratica" pd))),
   ("tipo_tariffe", tipoTariffe),
   ("avvocato_referente", .str (txt avvRef)),
   ("avvocato_in_mandato", avvMand),
   ("preventivo_inviato", .bool (jTruthy (jOr (jlookup "preventivo" pd) (jlookup "preventivo_inviato" pd)))),
   ("note", .str (txt (jlookup "note" pd))),
   ("tariffe_contenzioso", jOrD (jlookup "tariffe_contenzioso" pd) (.obj [])),
   ("tariffe_stragiudiziale", jOrD (jlookup "tariffe_stragiudiziale" pd) (.obj [])),
   ("preventivi", jOrD (jlookup "preventivi" pd) (.obj [])),
   ("preventivi_stragiudiziale", jOrD (jlookup "preventivi_stragiudiziale" pd) (.obj [])),
   ("scadenze", jOrD (jlookup "scadenze" pd) (.arr [])),
   ("totale_contenzioso", totC),
   ("totale_stragiudiziale", totS),
   ("totale_generale", totG),
   ("updated_at", .str now),
   ("anagrafica", .obj
      [("tipo_cliente", .str (if jTruthy (jlookup "giuridiche" ad) then "Impresa" else "Persona")),
       ("persone_giuridiche", jOrD (jlookup "giuridiche" ad) (.arr [])),
       ("persone_fisiche", jOrD (jlookup "fisiche" ad) (.arr []))])]

/-- The canonical-write section of `salva_tutto.salva_pratica` (the body
under the lock, lines 193–197): read the existing document, write the new
record unconditionally, and append one history entry unconditionally — no
canonical-serialization comparison, no skip. -/
def salva_pratica_core (now : String) (record : Doc) (st : FileState) : FileState :=
  { content := some record
    history := st.history ++ [⟨now, "user", "save_pratica", st.content, record⟩] }

/-- Success/failure oracle for the best-effort steps of
`salva_tutto.salva_pratica` (`dual_save`, `reindex`). -/
structure STOutcome where
  dualSaveOk : Bool
  reindexOk : Bool
deriving Repr, DecidableEq

structure STResult where
  state : FileState
  warnings : List String
  /-- `salva_pratica` returned `str(canon_path)` (not `None`). -/
  returnedPath : Bool
deriving Repr, DecidableEq

/-- `salva_tutto.salva_pratica` after the canonical-folder precondition:
write the canonical document and history, then attempt `dual_save` and
`reindex`, each inside `try/except` that degrades failure into a UI
warning; finally return the canonical path. -/
def salva_pratica (now : String) (record : Doc) (st : FileState) (o : STOutcome) : STResult :=
  let st2 := salva_pratica_core now record st
  let w1 := if o.dualSaveOk then [] else ["Dual-save non riuscito"]
  let w2 := if o.reindexOk then [] else ["Reindex fallito"]
  { state := st2, warnings := w1 ++ w2, returnedPath := true }

end SalvaTutto

/-! ## Centralized save pipeline (`storage_utils.py`) -/

namespace StorageUtils

/-- Success/failure oracle for the steps of `storage_utils.save_pratica`
that run after the two unguarded canonical JSON writes (`app_json`,
`canon_json`). -/
structure SUOutcome where
  userJsonOk : Bool
  dataJsonOk : Bool
  dbOk : Bool
  exportOk : Bool
  appSqlOk : Bool
  userSqlOk : Bool
  dataSqlOk : Bool
deriving Repr, DecidableEq

/-- Which artifacts `storage_utils.save_pratica` has produced. -/
structure SUState where
  appJsonWritten : Bool
  canonJsonWritten : Bool
  userJsonWritten : Bool
  dataJsonWritten : Bool
  dbUpserted : Bool
  sqlIsPlaceholder : Bool
  appSqlWritten : Bool
  userSqlWritten : Bool
  dataSqlWritten : Bool
  warnings : List String
deriving Repr, DecidableEq

/-- `storage_utils.save_pratica`, from the point where the practice id has
been accepted.  The two canonical JSON writes are unguarded and come first;
the claim under verification conditions on their success, so they are
modeled as succeeding.  The user/data JSON copies, the DB upsert and the
SQL rendering are each wrapped in `try/except` that degrades failure into
a printed warning; the write of the static SQL copy (`app_sql_path`) is
NOT wrapped, so its failure propagates out of `save_pratica`.  The second
component is `some msg` when the call raises. -/
def save_pratica (o : SUOutcome) : SUState × Option String :=
  let st0 : SUState :=
    { appJsonWritten := true, canonJsonWritten := true,
      userJsonWritten := false, dataJsonWritten := false,
      dbUpserted := false, sqlIsPlaceholder := false,
      appSqlWritten := false, userSqlWritten := false, dataSqlWritten := false,
      warnings := [] }
  let st1 :=
    if o.userJsonOk then { st0 with userJsonWritten := true }
    else { st0 with warnings := st0.warnings ++ ["WARN user json"] }
  let st2 :=
    if o.dataJsonOk then { st1 with dataJsonWritten := true }
    else { st1 with warnings := st1.warnings ++ ["WARN data json"] }
  let st3 :=
    if o.dbOk then { st2 with dbUpserted := true }
    else { st2 with warnings := st2.warnings ++ ["WARN DB write failed, file JSON scritti comunque"] }
  let st4 :=
    if o.exportOk then st3
    else { st3 with sqlIsPlaceholder := true, warnings := st3.warnings ++ ["WARN export SQL fallito"] }
  if o.appSqlOk then
    let st5 := { st4 with appSqlWritten := true }
    let st6 :=
      if o.userSqlOk then { st5 with userSqlWritten := true }
      else { st5 with warnings := st5.warnings ++ ["WARN user sql"] }
    let st7 :=
      if o.dataSqlOk then { st6 with dataSqlWritten := true }
      else { st6 with warnings := st6.warnings ++ ["WARN data sql"] }
    (st7, none)
  else
    (st4, some "unhandled exception writing app_sql_path")

end StorageUtils

/-! ## Relational Mirror (`repo_sqlite.py`) -/

namespace RepoSqlite

/-- Generic association lookup (first row with the given key). -/
def assocFind {α : Type} : List (String × α) → String → Option α
  | [], _ => none
  | e :: rest, id => if e.1 = id then some e.2 else assocFind rest id

/-- Row of `pratica_avvocati`.  Besides the columns named by the `INSERT`
in `repo_sqlite.upsert_pratica`, the table carries the `uid` and `pos`
columns added by `db_migrations.ensure_columns`; the active `INSERT` does
not mention them, so they are left `NULL` (`none`). -/
structure AvvRow where
  uid : Option J := none
  pos : Option J := none
  ruolo : Option J
  email : Option J
  nome : Option J
deriving Repr, DecidableEq

/-- Row of `pratica_tariffe` (`ordine` is the enumeration index). -/
structure TarRow where
  uid : Option J := none
  pos : Option J := none
  ordine : Int
  tipo_tariffa : Option J
deriving Repr, DecidableEq

/-- Row of `attivita`. -/
structure AttRow where
  uid : Option J := none
  pos : Option J := none
  inizio : Option J
  fine : Option J
  descrizione : Option J
  durata_min : Option J
  tariffa_eur : Option J
  tipo : Option J
  note : Option J
deriving Repr, DecidableEq

/-- Row of `scadenze` (`completata` stored as `1 if ... else 0`). -/
structure ScadRow where
  uid : Option J := none
  pos : Option J := none
  data_scadenza : Option J
  descrizione : Option J
  note : Option J
  completata : Int
deriving Repr, DecidableEq

/-- Row of `documenti`. -/
structure DocRow where
  uid : Option J := none
  pos : Option J := none
  path : Option J
  categoria : Option J
  note : Option J
  hash : Option J
deriving Repr, DecidableEq

/-- Row of the parent table `pratiche` (columns of the `INSERT`). -/
structure PratRow where
  id_pratica : String
  data_apertura : Option J
  data_chiusura : Option J
  tipo : Option J
  settore : Option J
  materia : Option J
  referente : Option J
  is_preventivo : Int
  note : Option J
  created_at : Option J
  updated_at : Option J
deriving Repr, DecidableEq

/-- The practice aggregate handed to `upsert_pratica` (keys
`id_pratica`, `metadata`, and the five child collections). -/
structure PraticaAgg where
  id_pratica : String
  metadata : Doc
  avvocati : List Doc
  tariffe : List Doc
  attivita : List Doc
  scadenze : List Doc
  documenti : List Doc
deriving Repr, DecidableEq

/-- The mirror database: the parent table plus the five child tables,
each child row paired with its `id_pratica`.  Row order models SQLite
row order (inserts append). -/
structure MirrorDB where
  pratiche : List PratRow
  pratica_avvocati : List (String × AvvRow)
  pratica_tariffe : List (String × TarRow)
  attivita : List (String × AttRow)
  scadenze : List (String × ScadRow)
  documenti : List (String × DocRow)
deriving Repr, DecidableEq

/-- `INSERT ... ON CONFLICT(id_pratica) DO UPDATE SET ...` on `pratiche`:
the `DO UPDATE` clause sets every inserted column except `created_at`. -/
def upsertParent (t : List PratRow) (r : PratRow) : List PratRow :=
  if (t.filter (fun x => x.id_pratica = r.id_pratica)).isEmpty then t ++ [r]
  else t.map (fun x => if x.id_pratica = r.id_pratica then { r with created_at := x.created_at } else x)

/-- `repo_sqlite.upsert_pratica` (the module-level implementation in
`src/repo_sqlite.py`): upsert the parent row, then for each of the five
child collections `DELETE` every stored row of this practice and `INSERT`
the incoming rows in list order.  No stable row identifier is read or
written: the inserted rows carry `uid = NULL`, `pos = NULL`. -/
def upsert_pratica (db : MirrorDB) (p : PraticaAgg) : MirrorDB :=
  let meta := p.metadata
  let parentRow : PratRow :=
    { id_pratica := p.id_pratica
      data_apertura := jlookup "data_apertura" meta
      data_chiusura := jlookup "data_chiusura" meta
      tipo := jlookup "tipo" meta
      settore := jlookup "settore" meta
      materia := jlookup "materia" meta
      referente := jlookup "referente" meta
      is_preventivo := if jTruthy (jlookup "is_preventivo" meta) then 1 else 0
      note := jlookup "note" meta
      created_at := jlookup "created_at" meta
      updated_at := jOr (jlookup "updated_at" meta) (jlookup "created_at" meta) }
  { pratiche := upsertParent db.pratiche parentRow
    pratica_avvocati :=
      (db.pratica_avvocati.filter (fun e => e.1 ≠ p.id_pratica)) ++
        p.avvocati.map (fun a =>
          (p.id_pratica,
           ({ ruolo := jlookup "ruolo" a, email := jlookup "email" a,
              nome := jlookup "nome" a } : AvvRow)))
    pratica_tariffe :=
      (db.pratica_tariffe.filter (fun e => e.1 ≠ p.id_pratica)) ++
        p.tariffe.enum.map (fun it =>
          (p.id_pratica,
           ({ ordine := it.1, tipo_tariffa := jlookup "tipo" it.2 } : TarRow)))
    attivita :=
      (db.attivita.filter (fun e => e.1 ≠ p.id_pratica)) ++
        p.attivita.map (fun a =>
          (p.id_pratica,
           ({ inizio := jlookup "inizio" a, fine := jlookup "fine" a,
              descrizione := jlookup "descrizione" a,
              durata_min := jlookup "durata_min" a,
              tariffa_eur := jlookup "tariffa_eur" a,
              tipo := jlookup "tipo" a, note := jlookup "note" a } : AttRow)))
    scadenze :=
      (db.scadenze.filter (fun e => e.1 ≠ p.id_pratica)) ++
        p.scadenze.map (fun s =>
          (p.id_pratica,
           ({ data_scadenza := jlookup "data_scadenza" s,
              descrizione := jlookup "descrizione" s,
              note := jlookup "note" s,
              completata := if jTruthy (jlookup "completata" s) then 1 else 0 } : ScadRow)))
    documenti :=
      (db.documenti.filter (fun e => e.1 ≠ p.id_pratica)) ++
        p.documenti.map (fun d =>
          (p.id_pratica,
           ({ path := jlookup "path" d, categoria := jlookup "categoria" d,
              note := jlookup "note" d, hash := jlookup "hash" d } : DocRow))) }

/-- The rows removed by the `DELETE FROM pratica_avvocati WHERE
id_pratica = ?` statement executed by `upsert_pratica`: every stored row
of the practice, regardless of its stable identifier. -/
def deletedAvvocati (db : MirrorDB) (pid : String) : List (String × AvvRow) :=
  db.pratica_avvocati.filter (fun e => e.1 = pid)

/-- The row written for one incoming staff entry by the reconcile merge
(column map of `repo_sqlite.user_original.merge_children`: `email`,
`nome`, `ruolo`, plus `uid` and `pos`). -/
def reconcileRow (i : Nat) (a : Doc) : AvvRow :=
  { uid := jlookup "uid" a, pos := some (.num i),
    ruolo := jlookup "ruolo" a, email := jlookup "email" a, nome := jlookup "nome" a }

/-- One update-or-insert step of the reconcile-by-stable-id merge. -/
def reconcileStep (pid : String) (t : List (String × AvvRow)) (i : Nat) (a : Doc) :
    List (String × AvvRow) :=
  let uid := jlookup "uid" a
  if (t.filter (fun e => e.1 = pid ∧ e.2.uid = uid)).isEmpty then
    t ++ [(pid, reconcileRow i a)]
  else
    t.map (fun e => if e.1 = pid ∧ e.2.uid = uid then (pid, reconcileRow i a) else e)

/-- Reconcile-by-stable-id merge of the staff collection, as the
specification describes `upsert_pratica` (§4.3: update rows whose stable
identifier is already stored, insert rows with a new identifier, delete
stored rows whose identifier is absent from the incoming set).  This is
the behavior of `merge_children` in `repo_sqlite.user_original.py`, the
variant targeted by every in-repo caller and by
`tests/test_salvataggi.py`. -/
def reconcileAvvocati (table : List (String × AvvRow)) (pid : String)
    (incoming : List Doc) : List (String × AvvRow) :=
  let t2 := incoming.enum.foldl (fun t it => reconcileStep pid t it.1 it.2) table
  let incomingUids := incoming.map (jlookup "uid")
  t2.filter (fun e => e.1 ≠ pid ∨ e.2.uid ∈ incomingUids)

end RepoSqlite

/-! ## Reindexer (`reindex.py`) -/

namespace Reindex

/-- One `pratica.json` encountered by the walk: its parsed content
(`none` models unreadable/invalid JSON, skipped with a warning by
`_load_pratica_json`), the fallback timestamp derived from the file
mtime, and the containing directory. -/
structure CorpusFile where
  parsed : Option Doc
  mtimeIso : String
  dir : String
deriving Repr, DecidableEq

/-- `(data.get(k) or None)` for a TEXT column (the fields are strings in
every canonical document). -/
def textField (v : Option J) : Option String :=
  match v with
  | some (.str s) => if s = "" then none else some s
  | _ => none

/-- `(data.get("id_pratica") or "").strip()`. -/
def idOf (d : Doc) : String :=
  pyStrip (match jlookup "id_pratica" d with
   | some (.str s) => s
   | _ => "")

/-- `data.get("updated_at") or _iso_from_mtime(p)`. -/
def updatedTs (d : Doc) (mtime : String) : String :=
  match jlookup "updated_at" d with
  | some (.str s) => if s = "" then mtime else s
  | _ => mtime

/-- Content hash of a document: sha256 of the stably-sorted serialization
(`json.dumps(data, ensure_ascii=False, sort_keys=True)`), modeled by the
canonical value itself (collision-free fingerprint). -/
def hashOf (d : Doc) : J := canonical_json d

/-- Row of the `pratiche` index table of `indice.sqlite`. -/
structure IndexRow where
  nome : Option String
  settore : Option String
  materia : Option String
  valore : Option String
  updated_at : String
  path : String
  hash : J
deriving Repr, DecidableEq

/-- Replace the row with the given id, or append it (`INSERT ...
ON CONFLICT(id) DO UPDATE SET ...`). -/
def assocUpsert {α : Type} (t : List (String × α)) (id : String) (v : α) :
    List (String × α) :=
  if (RepoSqlite.assocFind t id).isSome then
    t.map (fun e => if e.1 = id then (id, v) else e)
  else t ++ [(id, v)]

/-- Running state of a reindex pass: the index table, the two reported
counters, and the number of executed `upsert_sql` statements (each one is
a write to the mirror). -/
structure RState where
  table : List (String × IndexRow)
  inserted : Nat
  updated : Nat
  writes : Nat
deriving Repr, DecidableEq

/-- The row assembled for one canonical document. -/
def rowOf (data : Doc) (f : CorpusFile) : IndexRow :=
  { nome := textField (jlookup "nome_pratica" data)
    settore := textField (jlookup "settore_pratica" data)
    materia := textField (jlookup "materia_pratica" data)
    valore := textField (jlookup "valore_pratica" data)
    updated_at := updatedTs data f.mtimeIso
    path := f.dir
    hash := hashOf data }

/-- One iteration of the per-file loop of `reindex.reindex`: skip an
unparsable document or a document without an id; otherwise read the
stored hash, ALWAYS execute the upsert, and bump `updated` only when the
stored hash differs (resp. `inserted` when the id is new). -/
def reindexStep (st : RState) (f : CorpusFile) : RState :=
  match f.parsed with
  | none => st
  | some data =>
    let idp := idOf data
    if idp = "" then st
    else
      let h := hashOf data
      let row := RepoSqlite.assocFind st.table idp
      { table := assocUpsert st.table idp (rowOf data f)
        writes := st.writes + 1
        inserted := if row.isSome then st.inserted else st.inserted + 1
        updated :=
          if row.isSome then
            if row.map (·.hash) ≠ some h then st.updated + 1 else st.updated
          else st.updated }

/-- The per-file loop of `reindex.reindex`. -/
def reindexGo (st : RState) : List CorpusFile → RState
  | [] => st
  | f :: rest => reindexGo (reindexStep st f) rest

/-- `reindex.reindex`: optional purge, then the per-file loop starting
from zero counters. -/
def reindex (corpus : List CorpusFile) (table : List (String × IndexRow))
    (purge : Bool) : RState :=
  reindexGo ⟨if purge then [] else table, 0, 0, 0⟩ corpus

end Reindex

/-! ## Identifier allocation and collision handling
(`apertura_pratica_popup.py`, over the registry of `id_registry.py`) -/

namespace Apertura

/-- One registry record as consumed by `_id_exists` / `_next_id_for_year`:
the `int(...)` parses of `num_pratica` and `anno_pratica` (`none` models a
parse failure, which the source skips with `continue`), and the stored
practice name. -/
structure RegRecord where
  num_pratica : Option Int
  anno_pratica : Option Int
  nome_pratica : String
deriving Repr, DecidableEq

/-- `apertura_pratica_popup._id_exists`: first record matching
`(numero, anno)` yields `(True, nome)`; parse failures are skipped. -/
def id_exists : List RegRecord → Int → Int → Bool × Option String
  | [], _, _ => (false, none)
  | r :: rest, numero, anno =>
      match r.num_pratica, r.anno_pratica with
      | some n, some a =>
          if n = numero ∧ a = anno then (true, some r.nome_pratica)
          else id_exists rest numero anno
      | _, _ => id_exists rest numero anno

/-- `apertura_pratica_popup._next_id_for_year`: maximum stored sequence
number for the year (skipping records of other years and parse failures),
then `max_num + 1 if max_num >= 0 else 1`. -/
def next_id_for_year (reg : List RegRecord) (anno : Int) : Int :=
  let maxNum := reg.foldl (fun m r =>
    match r.anno_pratica with
    | some a =>
        if a ≠ anno then m
        else
          match r.num_pratica with
          | some n => if n > m then n else m
          | none => m
    | none => m) 0
  if maxNum ≥ 0 then maxNum + 1 else 1

/-- What the save flow decides about the proposed identifier. -/
inductive SaveDecision where
  | proceed (num anno : Int)
  | conflict (existingName : String) (overwriteChoice : Int × Int)
      (nextChoice : Int × Int)
deriving Repr, DecidableEq

/-- The identifier-collision logic of `salva` in
`apertura_pratica_popup.py`: when the proposed id exists under a
different name, surface a dialog carrying the name of the existing binding and
the two explicit choices — overwrite the same id, or take
`_next_id_for_year`; otherwise proceed with the proposed id. -/
def salva_id_decision (reg : List RegRecord) (numero anno : Int)
    (cartella_pratica : String) : SaveDecision :=
  let e := id_exists reg numero anno
  if e.1 ∧ (e.2.getD "") ≠ cartella_pratica then
    .conflict (e.2.getD "") (numero, anno) (next_id_for_year reg anno, anno)
  else .proceed numero anno

end Apertura

/-! ## Retention Manager (`retention.py`) -/

namespace Retention

/-- One timestamped backup file: name, parsed timestamp (seconds; larger
is newer), size in bytes.  The filename glob, timestamp regex and `stat`
calls are I/O and happen before the pure logic embedded here. -/
structure Snap where
  name : String
  dt : Int
  sz : Nat
deriving Repr, DecidableEq

def insDesc (p : Snap) : List Snap → List Snap
  | [] => [p]
  | q :: qs => if p.dt ≥ q.dt then p :: q :: qs else q :: insDesc p qs

/-- `items.sort(key=lambda t: t[1], reverse=True)`: newest first. -/
def sortDesc (l : List Snap) : List Snap := l.foldr insDesc []

/-- The loop of `retention._select_newest_per_bucket`: walk the items
(newest first), skip files already kept — without marking their bucket as
seen — and skip buckets already seen; otherwise choose the file, stopping
at `limit` chosen files. -/
def selGo (bucketFn : Snap → Int) (limit : Nat) (kept : List String) :
    List Snap → List Snap → List Int → List Snap
  | [], chosen, _ => chosen
  | p :: rest, chosen, seen =>
      if p.name ∈ kept then selGo bucketFn limit kept rest chosen seen
      else if bucketFn p ∈ seen then selGo bucketFn limit kept rest chosen seen
      else
        let chosen2 := chosen ++ [p]
        if limit ≤ chosen2.length then chosen2
        else selGo bucketFn limit kept rest chosen2 (seen ++ [bucketFn p])

/-- `retention._select_newest_per_bucket` (bucket keys abstracted as the
function `bucketFn`; the source passes strftime/isocalendar formatters). -/
def select_newest_per_bucket (items : List Snap) (bucketFn : Snap → Int)
    (limit : Nat) (kept : List String) : List Snap :=
  if limit = 0 then [] else selGo bucketFn limit kept items [] []

/-- One tier pass of the tiered branch (`if keep_x is not None and
keep_x > 0: chosen = _select_newest_per_bucket(...)`). -/
def tierPass (itemsDesc : List Snap) (b : Snap → Int) (k : Option Int)
    (kept : List String) : List Snap :=
  match k with
  | some d => if 0 < d then select_newest_per_bucket itemsDesc b d.toNat kept else []
  | none => []

/-- The base keep-set: names of the newest `keep_last` files. -/
def tieredK0 (itemsDesc : List Snap) (keep_last : Nat) : List String :=
  (itemsDesc.take keep_last).map (·.name)

/-- Keep-set after the day tier. -/
def tieredK1 (itemsDesc : List Snap) (keep_last : Nat) (keep_days : Option Int)
    (dayB : Snap → Int) : List String :=
  tieredK0 itemsDesc keep_last ++
    (tierPass itemsDesc dayB keep_days (tieredK0 itemsDesc keep_last)).map (·.name)

/-- Keep-set after the week tier. -/
def tieredK2 (itemsDesc : List Snap) (keep_last : Nat)
    (keep_days keep_weeks : Option Int) (dayB weekB : Snap → Int) : List String :=
  tieredK1 itemsDesc keep_last keep_days dayB ++
    (tierPass itemsDesc weekB keep_weeks
      (tieredK1 itemsDesc keep_last keep_days dayB)).map (·.name)

/-- The tiered branch of `enforce_retention_for_practice`: always the
newest `keep_last`, then one pass per configured tier, each feeding the
keep-set accumulated so far into the selection. -/
def tieredKeep (itemsDesc : List Snap) (keep_last : Nat)
    (keep_days keep_weeks keep_months : Option Int)
    (dayB weekB monthB : Snap → Int) : List String :=
  tieredK2 itemsDesc keep_last keep_days keep_weeks dayB weekB ++
    (tierPass itemsDesc monthB keep_months
      (tieredK2 itemsDesc keep_last keep_days keep_weeks dayB weekB)).map (·.name)

/-- The simple branch: newest `keep_last`, plus everything newer than
`now - keep_days` when configured. -/
def simpleKeep (itemsDesc : List Snap) (keep_last : Nat)
    (keep_days : Option Int) (now : Int) : List String :=
  let base := (itemsDesc.take keep_last).map (·.name)
  match keep_days with
  | some d =>
      if 0 ≤ d then
        base ++ ((itemsDesc.filter
          (fun p => now - d * 86400 ≤ p.dt ∧ p.name ∉ base)).map (·.name))
      else base
  | none => base

/-- The size-cap eviction loop: walk the kept files oldest first, dropping
files while the total size still exceeds the cap. -/
def capGo (limitBytes : Nat) : List Snap → Nat → List String
  | [], _ => []
  | p :: rest, current =>
      if current ≤ limitBytes then []
      else p.name :: capGo limitBytes rest (current - p.sz)

/-- Optional `max_megabytes` cap applied to the keep-set (both
strategies). -/
def applyCap (itemsDesc : List Snap) (keep : List String)
    (max_megabytes : Option Nat) : List String :=
  match max_megabytes with
  | none => keep
  | some mb =>
      if 0 < mb then
        let keptSorted := itemsDesc.filter (fun p => p.name ∈ keep)
        let limitBytes := mb * 1024 * 1024
        let current := (keptSorted.map (·.sz)).sum
        if limitBytes < current then
          keep.filter (fun nm => nm ∉ capGo limitBytes keptSorted.reverse current)
        else keep
      else keep

/-- Retention policy parameters (the keyword arguments of
`enforce_retention_for_practice`). -/
structure RetentionPolicy where
  strategy_simple : Bool
  keep_last : Nat
  keep_days : Option Int
  max_megabytes : Option Nat
  keep_weeks : Option Int
  keep_months : Option Int

/-- The keep-set computed by `enforce_retention_for_practice` on the
listed timestamped backups. -/
def retentionKeepSet (items0 : List Snap) (pol : RetentionPolicy) (now : Int)
    (dayB weekB monthB : Snap → Int) : List String :=
  let items := sortDesc items0
  let keep :=
    if pol.strategy_simple then simpleKeep items pol.keep_last pol.keep_days now
    else tieredKeep items pol.keep_last pol.keep_days pol.keep_weeks pol.keep_months
      dayB weekB monthB
  applyCap items keep pol.max_megabytes

/-- The deletion plan (`to_delete`): every listed file not in the
keep-set. -/
def retentionPlan (items0 : List Snap) (pol : RetentionPolicy) (now : Int)
    (dayB weekB monthB : Snap → Int) : List Snap :=
  (sortDesc items0).filter
    (fun p => p.name ∉ retentionKeepSet items0 pol now dayB weekB monthB)

/-- The `RetentionResult` dataclass. -/
structure RetentionResult where
  kept : Nat
  deleted : Nat
  bytes_freed : Nat
  deleted_files : List String
deriving Repr, DecidableEq

/-- `enforce_retention_for_practice`: compute the keep-set and the plan;
under `dry_run` touch nothing and report `deleted = 0`, `bytes_freed = 0`,
`deleted_files = []`; otherwise unlink the planned files and report them.
The second component is the folder content after the call. -/
def enforce_retention_for_practice (items0 : List Snap) (pol : RetentionPolicy)
    (now : Int) (dayB weekB monthB : Snap → Int) (dry_run : Bool) :
    RetentionResult × List Snap :=
  let keep := retentionKeepSet items0 pol now dayB weekB monthB
  let toDelete := retentionPlan items0 pol now dayB weekB monthB
  if dry_run then
    ({ kept := keep.length, deleted := 0, bytes_freed := 0, deleted_files := [] },
     items0)
  else
    ({ kept := keep.length, deleted := toDelete.length
       bytes_freed := (toDelete.map (·.sz)).sum
       deleted_files := toDelete.map (·.name) },
     items0.filter (fun p => p.name ∉ toDelete.map (·.name)))

end Retention

/-! ## Atomic file writes (`repo._atomic_write_text`,
`id_registry._atomic_write`, `dual_save._atomic_write`,
`storage_utils._atomic_write_bytes`) -/

namespace AtomicWrite

/-- A file system: path → content of the file at that path, if any. -/
def FS : Type := String → Option String

/-- Write/overwrite one file. -/
def fsWrite (fs : FS) (p c : String) : FS :=
  fun q => if q = p then some c else fs q

/-- `os.replace(src, dst)`: atomic rename on the same file system. -/
def fsRename (fs : FS) (src dst : String) : FS :=
  fun q => if q = dst then fs src else if q = src then none else fs q

/-- Every file-system state observable while a temp-file-then-rename
write is in progress: one state per prefix of the text landed in the temp
file (the write to the temp file may be interrupted anywhere), then the
state after the atomic rename. -/
def writeStates (fs : FS) (tmp dst text : String) : List FS :=
  ((List.range (text.length + 1)).map (fun i => fsWrite fs tmp (text.take i))) ++
    [fsRename (fsWrite fs tmp text) tmp dst]

/-- Temp name used by `repo._atomic_write_text` and
`id_registry._atomic_write`: `path.with_suffix(path.suffix + ".tmp")`,
i.e. the destination name with `".tmp"` appended. -/
def suffixTmp (dst : String) : String := dst ++ ".tmp"

/-- `repo._atomic_write_text` (canonical document writes): write the full
text to `<dst>.tmp`, fsync, then `os.replace` onto the destination. -/
def repo_atomic_write_states (fs : FS) (dst text : String) : List FS :=
  writeStates fs (suffixTmp dst) dst text

/-- `id_registry._atomic_write` (identifier-registry writes): same
temp-then-rename scheme. -/
def id_registry_atomic_write_states (fs : FS) (dst text : String) : List FS :=
  writeStates fs (suffixTmp dst) dst text

/-- `dual_save._atomic_write` / `storage_utils._atomic_write_bytes`
(snapshot copies): `tempfile.mkstemp(prefix=path.name, dir=path.parent)`
yields a fresh name `dst ++ salt` with a non-empty random salt in the same
directory, then `os.replace` onto the destination. -/
def mkstemp_atomic_write_states (fs : FS) (dst salt text : String) : List FS :=
  writeStates fs (dst ++ salt) dst text

end AtomicWrite

/-! ## Auxiliary definitions used by the claim statements -/

namespace Apertura

/-- The sequence numbers stored for a given year (statement-side view of
`nextAvailable(year)`). -/
def yearNums (reg : List RegRecord) (anno : Int) : List Int :=
  reg.filterMap (fun r =>
    match r.anno_pratica, r.num_pratica with
    | some a, some n => if a = anno then some n else none
    | _, _ => none)

end Apertura

namespace Retention

/-- Number of additional snapshots a tier may keep. -/
def tierLimit : Option Int → Nat
  | some d => d.toNat
  | none => 0

/-- Whether a tier is configured (positive limit). -/
def tierOn : Option Int → Bool
  | some d => decide (0 < d)
  | none => false

/-- `s` is the newest snapshot of its bucket. -/
def isNewestOfBucket (items : List Snap) (b : Snap → Int) (s : Snap) : Bool :=
  (items.filter (fun q => b q = b s ∧ q.dt > s.dt)).isEmpty

/-- Tier satisfaction in the sense of the specification: the snapshot is
among the `keep_last` newest, or a configured day/week/month tier keeps it
because it is the newest of its bucket. -/
def satisfiesTierSpec (items : List Snap) (keep_last : Nat)
    (keep_days keep_weeks keep_months : Option Int)
    (dayB weekB monthB : Snap → Int) (s : Snap) : Bool :=
  decide (s ∈ (sortDesc items).take keep_last) ||
  (tierOn keep_days && isNewestOfBucket items dayB s) ||
  (tierOn keep_weeks && isNewestOfBucket items weekB s) ||
  (tierOn keep_months && isNewestOfBucket items monthB s)

end Retention

/-! ## Helper lemmas -/

theorem setdefaultDoc_of_isSome {d : Doc} {k : String} {v : J}
    (h : (jlookup k d).isSome) : setdefaultDoc d k v = d := by
  unfold setdefaultDoc
  cases hq : jlookup k d with
  | none => rw [hq] at h; simp at h
  | some w => rfl

theorem foldl_max_ge (l : List Int) : ∀ m : Int, m ≤ l.foldl max m := by
  induction l with
  | nil => intro m; simp
  | cons a as ih =>
    intro m
    calc m ≤ max m a := le_max_left m a
    _ ≤ as.foldl max (max m a) := ih (max m a)

theorem mem_le_foldl_max (l : List Int) : ∀ m : Int, ∀ x ∈ l, x ≤ l.foldl max m := by
  induction l with
  | nil => intro m x hx; simp at hx
  | cons a as ih =>
    intro m x hx
    rcases List.mem_cons.mp hx with h | h
    · subst h
      calc x ≤ max m x := le_max_right m x
      _ ≤ as.foldl max (max m x) := foldl_max_ge as (max m x)
    · exact ih (max m a) x h

/-- The accumulator loop of `_next_id_for_year` computes the running
maximum of the parsed sequence numbers of the requested year. -/
theorem nextIdFold_eq (anno : Int) :
    ∀ (reg : List Apertura.RegRecord) (m : Int),
      reg.foldl (fun m r =>
        match r.anno_pratica with
        | some a =>
            if a ≠ anno then m
            else
              match r.num_pratica with
              | some n => if n > m then n else m
              | none => m
        | none => m) m = (Apertura.yearNums reg anno).foldl max m := by
  intro reg
  induction reg with
  | nil => intro m; simp [Apertura.yearNums]
  | cons r rest ih =>
    intro m
    obtain ⟨np, ap, nome⟩ := r
    cases ap with
    | none =>
      simpa [Apertura.yearNums] using ih m
    | some a =>
      by_cases haa : a = anno
      · subst haa
        cases np with
        | none => simpa [Apertura.yearNums] using ih m
        | some n =>
          have hmax : (if n > m then n else m) = max m n := by
            rcases le_or_lt n m with h | h
            · simp [not_lt.mpr h, max_eq_left h]
            · simp [h, max_eq_right (le_of_lt h)]
          simpa [Apertura.yearNums, hmax] using ih (max m n)
      · cases np <;> simpa [Apertura.yearNums, haa] using ih m

/-! ## Claim C4 — `repo.load_pratica` error behavior -/

/-- C4: `repo.load_pratica` raises a not-found error when `pratica.json`
is absent, raises a parse error when the stored bytes are not valid JSON,
and any successful result is exactly the parse of the stored bytes — an
empty document is never substituted. -/
theorem c4_load_pratica_errors (parse : String → Option Doc) (file : Option String) :
    (Repo.load_pratica parse none = .errNotFound) ∧
    (∀ bytes, file = some bytes → parse bytes = none →
      Repo.load_pratica parse file = .errParse) ∧
    (∀ d, Repo.load_pratica parse file = .ok d →
      ∃ bytes, file = some bytes ∧ parse bytes = some d) := by
  refine ⟨rfl, ?_, ?_⟩
  · intro bytes hfile hparse
    subst hfile
    simp [Repo.load_pratica, hparse]
  · intro d hok
    cases file with
    | none => simp [Repo.load_pratica] at hok
    | some bytes =>
      refine ⟨bytes, rfl, ?_⟩
      cases hp : parse bytes with
      | none => simp [Repo.load_pratica, hp] at hok
      | some w => simpa [Repo.load_pratica, hp] using hok

/-- Witness for C4 at a concrete parser and file contents. -/
theorem c4_witness :
    ((some "x" : Option String) = some "x") ∧ ((fun _ : String => (none : Option Doc)) "x" = none) ∧
    Repo.load_pratica (fun _ => none) (some "x") = .errParse :=
  ⟨rfl, rfl, (c4_load_pratica_errors (fun _ => none) (some "x")).2.1 "x" rfl rfl⟩

/-! ## Claim C8 — identifier collision surfaced, next-available = max+1 -/

/-- C8: when the proposed `sequence/year` is bound to a practice with a
different name, the save flow surfaces the name of the existing binding and the
two explicit choices (overwrite, or next available), never silently
proceeding; and `_next_id_for_year` returns `max(sequence)+1` over the
identifiers stored for that year, `1` when the year has none. -/
theorem c8_collision_policy (reg : List Apertura.RegRecord) (numero anno : Int)
    (cart : String)
    (hex : (Apertura.id_exists reg numero anno).1 = true)
    (hne : ((Apertura.id_exists reg numero anno).2.getD "") ≠ cart) :
    Apertura.salva_id_decision reg numero anno cart =
      .conflict ((Apertura.id_exists reg numero anno).2.getD "")
        (numero, anno) (Apertura.next_id_for_year reg anno, anno) ∧
    (∀ num anno₂ cart₂, Apertura.salva_id_decision reg num anno₂ cart₂ =
        .proceed num anno₂ ∨
      Apertura.salva_id_decision reg num anno₂ cart₂ =
        .conflict ((Apertura.id_exists reg num anno₂).2.getD "")
          (num, anno₂) (Apertura.next_id_for_year reg anno₂, anno₂)) ∧
    Apertura.next_id_for_year reg anno =
      (Apertura.yearNums reg anno).foldl max 0 + 1 ∧
    (Apertura.yearNums reg anno = [] → Apertura.next_id_for_year reg anno = 1) ∧
    (∀ n ∈ Apertura.yearNums reg anno, n < Apertura.next_id_for_year reg anno) := by
  have hfold := nextIdFold_eq anno reg 0
  have hge : (0 : Int) ≤ (Apertura.yearNums reg anno).foldl max 0 :=
    foldl_max_ge (Apertura.yearNums reg anno) 0
  have hnext : Apertura.next_id_for_year reg anno =
      (Apertura.yearNums reg anno).foldl max 0 + 1 := by
    unfold Apertura.next_id_for_year
    rw [hfold]
    simp [hge]
  refine ⟨?_, ?_, hnext, ?_, ?_⟩
  · unfold Apertura.salva_id_decision
    simp [hex, hne]
  · intro num anno₂ cart₂
    unfold Apertura.salva_id_decision
    by_cases h : (Apertura.id_exists reg num anno₂).1 = true ∧
        ((Apertura.id_exists reg num anno₂).2.getD "") ≠ cart₂
    · right; simp [h]
    · left; simp [h]
  · intro hempty
    rw [hnext, hempty]
    simp
  · intro n hn
    rw [hnext]
    have := mem_le_foldl_max (Apertura.yearNums reg anno) 0 n hn
    omega

/-- Witness for C8: registry holding `3/2025 → "Client A"`, proposal
`3/2025` for a practice named `"Client B"`. -/
theorem c8_witness :
    (Apertura.id_exists [⟨some 3, some 2025, "Client A"⟩] 3 2025).1 = true ∧
    ((Apertura.id_exists [⟨some 3, some 2025, "Client A"⟩] 3 2025).2.getD "") ≠ "Client B" ∧
    Apertura.salva_id_decision [⟨some 3, some 2025, "Client A"⟩] 3 2025 "Client B" =
      .conflict "Client A" (3, 2025) (4, 2025) :=
  ⟨by decide, by decide, by
    have h := (c8_collision_policy [⟨some 3, some 2025, "Client A"⟩] 3 2025 "Client B"
      (by decide) (by decide)).1
    simpa using h⟩

/-! ## Claim C2 — idempotent save -/

/-- Counterexample to C2 as stated: saving the identical record twice in a
row through `salva_tutto.salva_pratica` (even within the same second, so
that the two records are byte-identical) leaves TWO history entries, not
one — that save path writes and appends history unconditionally. -/
theorem c2_counterexample :
    (SalvaTutto.salva_pratica "T"
        [("id_pratica", J.str "1/2025"), ("updated_at", J.str "T")]
        ((SalvaTutto.salva_pratica "T"
          [("id_pratica", J.str "1/2025"), ("updated_at", J.str "T")]
          ⟨none, []⟩ ⟨true, true⟩).state) ⟨true, true⟩).state.history.length = 2 ∧
    ¬ ((SalvaTutto.salva_pratica "T"
        [("id_pratica", J.str "1/2025"), ("updated_at", J.str "T")]
        ((SalvaTutto.salva_pratica "T"
          [("id_pratica", J.str "1/2025"), ("updated_at", J.str "T")]
          ⟨none, []⟩ ⟨true, true⟩).state) ⟨true, true⟩).state.history.length = 1) := by
  decide

/-- C2 as amended: through `repo._save_dict` a second save of a document
that already carries `updated_at` is a complete no-op (the canonical
serializations coincide, so both the write and the history append are
skipped, and the pair of saves leaves exactly one history entry); the
`salva_tutto.salva_pratica` path instead appends one history entry on
EVERY save, byte-identical or not. -/
theorem c2_idempotent_save_amended (t1 t2 a : String) (d : Doc) (st : FileState)
    (hupd : (jlookup "updated_at" d).isSome) :
    (st.content = some d → Repo.save_dict t2 a st d = st) ∧
    ((Repo.save_dict t1 a ⟨none, []⟩ d).history.length = 1 ∧
      Repo.save_dict t2 a (Repo.save_dict t1 a ⟨none, []⟩ d) d =
        Repo.save_dict t1 a ⟨none, []⟩ d) ∧
    (∀ now r st₂, (SalvaTutto.salva_pratica_core now r st₂).history.length =
        st₂.history.length + 1) := by
  have hset : ∀ now : String, setdefaultDoc d "updated_at" (.str now) = d :=
    fun _ => setdefaultDoc_of_isSome hupd
  have hskip : ∀ st₂ : FileState, st₂.content = some d →
      Repo.save_dict t2 a st₂ d = st₂ := by
    intro st₂ hc
    unfold Repo.save_dict
    rw [hset t2, hc]
    simp
  have hfirst : Repo.save_dict t1 a ⟨none, []⟩ d =
      ⟨some d, [⟨t1, a, "save_pratica", none, d⟩]⟩ := by
    unfold Repo.save_dict
    rw [hset t1]
    rfl
  refine ⟨hskip st, ⟨?_, ?_⟩, ?_⟩
  · rw [hfirst]
    rfl
  · exact hskip _ (by rw [hfirst])
  · intro now r st₂
    simp [SalvaTutto.salva_pratica_core]

/-- Witness for C2 (amended) at a concrete document. -/
theorem c2_witness :
    ((jlookup "updated_at" [("id_pratica", J.str "9/2025"), ("updated_at", J.str "T")]).isSome) ∧
    (Repo.save_dict "T2" "sys"
        (Repo.save_dict "T1" "sys" ⟨none, []⟩
          [("id_pratica", J.str "9/2025"), ("updated_at", J.str "T")])
        [("id_pratica", J.str "9/2025"), ("updated_at", J.str "T")] =
      Repo.save_dict "T1" "sys" ⟨none, []⟩
        [("id_pratica", J.str "9/2025"), ("updated_at", J.str "T")]) :=
  ⟨by decide,
    (c2_idempotent_save_amended "T1" "T2" "sys"
      [("id_pratica", J.str "9/2025"), ("updated_at", J.str "T")]
      ⟨none, []⟩ (by decide)).2.1.2⟩

/-! ## Claim C10 — the typed save path and `updated_at` stamping -/

/-- C10: evaluation of the code at the failing input.  `repo.save_pratica`
on the only `Pratica` type in the repository performs no stamping and
never writes: the fallback serialization yields the repr string (a JSON
string, not a mapping), so `_save_dict` raises `ValueError` at
`dict(after)` and no document is produced — contradicting both the claim
and the docstring of `repo.save_pratica` itself.  The `salva_tutto` half
of the claim does hold: `_build_record` stamps `updated_at` with the
current time on every call, so two successive `salva_tutto` saves of an
otherwise-unchanged practice write documents that differ in (at least)
the `updated_at` field. -/
theorem c10_save_pratica_raises :
    Repo.fallback_dump ⟨"1/2025", "Client A", "/arch/1_2025"⟩ =
      J.str (Repo.reprPratica ⟨"1/2025", "Client A", "/arch/1_2025"⟩) ∧
    Repo.save_pratica "2025-01-01T10:00:00" "system"
      ⟨"1/2025", "Client A", "/arch/1_2025"⟩ ⟨none, []⟩ = .valueError ∧
    (∀ st : FileState, Repo.save_pratica "2025-01-01T10:00:00" "system"
      ⟨"1/2025", "Client A", "/arch/1_2025"⟩ st = .valueError) ∧
    jlookup "updated_at"
      (SalvaTutto.build_record "2025-01-01T10:00:00" [] [] (.num 0) (.num 0) (.num 0)) =
      some (.str "2025-01-01T10:00:00") ∧
    (SalvaTutto.salva_pratica "2025-01-01T10:00:00"
      (SalvaTutto.build_record "2025-01-01T10:00:00" [] [] (.num 0) (.num 0) (.num 0))
      ⟨none, []⟩ ⟨true, true⟩).state.content =
      some (SalvaTutto.build_record "2025-01-01T10:00:00" [] [] (.num 0) (.num 0) (.num 0)) ∧
    (SalvaTutto.salva_pratica "2025-01-01T10:00:01"
      (SalvaTutto.build_record "2025-01-01T10:00:01" [] [] (.num 0) (.num 0) (.num 0))
      ((SalvaTutto.salva_pratica "2025-01-01T10:00:00"
        (SalvaTutto.build_record "2025-01-01T10:00:00" [] [] (.num 0) (.num 0) (.num 0))
        ⟨none, []⟩ ⟨true, true⟩).state) ⟨true, true⟩).state.content =
      some (SalvaTutto.build_record "2025-01-01T10:00:01" [] [] (.num 0) (.num 0) (.num 0)) ∧
    SalvaTutto.build_record "2025-01-01T10:00:00" [] [] (.num 0) (.num 0) (.num 0) ≠
      SalvaTutto.build_record "2025-01-01T10:00:01" [] [] (.num 0) (.num 0) (.num 0) := by
  refine ⟨rfl, rfl, fun st => rfl, by decide, rfl, rfl, by decide⟩

/-! ## Claim C9 — temp-file-then-atomic-rename visibility -/

theorem string_append_ne_of_ne_empty (dst s : String) (h : s ≠ "") :
    dst ++ s ≠ dst := by
  intro hEq
  have hlen := congrArg String.length hEq
  rw [String.length_append] at hlen
  have hz : s.length = 0 := by omega
  exact h (String.ext (List.length_eq_zero.mp hz))

/-- Observation property of one temp-then-rename write: at every
intermediate state the destination holds either the complete old content
or the complete new content. -/
theorem writeStates_observation (fs : AtomicWrite.FS) (tmp dst text : String)
    (hne : tmp ≠ dst) :
    ∀ st ∈ AtomicWrite.writeStates fs tmp dst text,
      st dst = fs dst ∨ st dst = some text := by
  intro st hmem
  rcases List.mem_append.mp hmem with h | h
  · rcases List.mem_map.mp h with ⟨i, hi, hrfl⟩
    left
    rw [← hrfl]
    simp [AtomicWrite.fsWrite, Ne.symm hne]
  · rw [List.mem_singleton.mp h]
    right
    simp [AtomicWrite.fsRename, AtomicWrite.fsWrite]

/-- C9: the canonical-document writer (`repo._atomic_write_text`), the
identifier-registry writer (`id_registry._atomic_write`) and the snapshot
writers (`dual_save._atomic_write`, `storage_utils._atomic_write_bytes`)
all write to a same-directory temp file and `os.replace` it onto the
destination, so at every observable instant the destination path holds
either the complete previous content or the complete new content — never
a partially written file. -/
theorem c9_atomic_write_visibility (fs : AtomicWrite.FS) (dst text salt : String)
    (hsalt : salt ≠ "") :
    (∀ st ∈ AtomicWrite.repo_atomic_write_states fs dst text,
        st dst = fs dst ∨ st dst = some text) ∧
    (∀ st ∈ AtomicWrite.id_registry_atomic_write_states fs dst text,
        st dst = fs dst ∨ st dst = some text) ∧
    (∀ st ∈ AtomicWrite.mkstemp_atomic_write_states fs dst salt text,
        st dst = fs dst ∨ st dst = some text) := by
  have htmp : AtomicWrite.suffixTmp dst ≠ dst :=
    string_append_ne_of_ne_empty dst ".tmp" (by decide)
  have hmk : dst ++ salt ≠ dst := string_append_ne_of_ne_empty dst salt hsalt
  exact ⟨writeStates_observation fs _ dst text htmp,
    writeStates_observation fs _ dst text htmp,
    writeStates_observation fs _ dst text hmk⟩

/-- Witness for C9: the state right after the atomic rename holds the
complete new content of `pratica.json`. -/
theorem c9_witness :
    ("s1" : String) ≠ "" ∧
    ((AtomicWrite.fsRename
        (AtomicWrite.fsWrite (fun _ => none) (AtomicWrite.suffixTmp "pratica.json") "T")
        (AtomicWrite.suffixTmp "pratica.json") "pratica.json") "pratica.json" =
          (fun _ => (none : Option String)) "pratica.json" ∨
      (AtomicWrite.fsRename
        (AtomicWrite.fsWrite (fun _ => none) (AtomicWrite.suffixTmp "pratica.json") "T")
        (AtomicWrite.suffixTmp "pratica.json") "pratica.json") "pratica.json" = some "T") :=
  ⟨by decide,
    (c9_atomic_write_visibility (fun _ => none) "pratica.json" "T" "s1" (by decide)).1
      _ (List.mem_append_right _ (List.mem_singleton.mpr rfl))⟩

/-! ## Claim C3 — mirror/snapshot failures after a canonical write -/

/-- Counterexample to C3 as stated: in `storage_utils.save_pratica` the
write of the static SQL snapshot copy (`app_sql_path`) is not guarded, so
its failure propagates and the save raises even though the canonical
document writes already succeeded. -/
theorem c3_counterexample :
    (StorageUtils.save_pratica ⟨true, true, true, true, false, true, true⟩).2 =
      some "unhandled exception writing app_sql_path" ∧
    (StorageUtils.save_pratica ⟨true, true, true, true, false, true, true⟩).1.canonJsonWritten
      = true ∧
    (StorageUtils.save_pratica ⟨true, true, true, true, false, true, true⟩).1.appJsonWritten
      = true := by
  decide

/-- C3 as amended: after the canonical write has succeeded, failures of
the Relational Mirror update or of the Snapshot Writer are caught and
surfaced as warnings and never roll back the canonical document — with
one exception: in `storage_utils.save_pratica` the static SQL copy write
is unguarded, so its failure aborts the save (the canonical file on disk
still remains).  Along `salva_tutto.salva_pratica` every post-canonical
failure is non-fatal and the canonical path is still returned. -/
theorem c3_nonfatal_amended (now : String) (r : Doc) (st : FileState)
    (o : SalvaTutto.STOutcome) (u : StorageUtils.SUOutcome)
    (happ : u.appSqlOk = true) :
    ((SalvaTutto.salva_pratica now r st o).state.content = some r ∧
      (SalvaTutto.salva_pratica now r st o).returnedPath = true) ∧
    (StorageUtils.save_pratica u).2 = none ∧
    (∀ u₂ : StorageUtils.SUOutcome,
      (StorageUtils.save_pratica u₂).1.canonJsonWritten = true ∧
      (StorageUtils.save_pratica u₂).1.appJsonWritten = true) := by
  refine ⟨⟨rfl, rfl⟩, ?_, ?_⟩
  · obtain ⟨uj, dj, db, ex, asql, usql, dsql⟩ := u
    cases asql with
    | false => simp at happ
    | true =>
        cases uj <;> cases dj <;> cases db <;> cases ex <;> cases usql <;> cases dsql <;> rfl
  · rintro ⟨uj, dj, db, ex, asql, usql, dsql⟩
    cases uj <;> cases dj <;> cases db <;> cases ex <;> cases asql <;> cases usql <;>
      cases dsql <;> exact ⟨rfl, rfl⟩

/-- Witness for C3 (amended): all-failing mirror and snapshot steps along
`salva_tutto`, and a mirror failure in `storage_utils`, leave the
canonical document in place and the save successful. -/
theorem c3_witness :
    ((⟨true, true, false, false, true, true, true⟩ : StorageUtils.SUOutcome).appSqlOk = true) ∧
    (SalvaTutto.salva_pratica "T" [("id_pratica", J.str "1/2025")] ⟨none, []⟩
        ⟨false, false⟩).state.content = some [("id_pratica", J.str "1/2025")] ∧
    (StorageUtils.save_pratica ⟨true, true, false, false, true, true, true⟩).2 = none :=
  ⟨by decide,
    (c3_nonfatal_amended "T" [("id_pratica", J.str "1/2025")] ⟨none, []⟩ ⟨false, false⟩
      ⟨true, true, false, false, true, true, true⟩ (by decide)).1.1,
    (c3_nonfatal_amended "T" [("id_pratica", J.str "1/2025")] ⟨none, []⟩ ⟨false, false⟩
      ⟨true, true, false, false, true, true, true⟩ (by decide)).2.1⟩

/-! ## Claim C1 — relational mirror child reconciliation -/

/-- C1: the shipped `repo_sqlite.upsert_pratica` does not reconcile child
rows by stable identifier.  At the failing input — a stored staff row
whose `uid` is present in the incoming collection, re-upserted with the
identical aggregate — the reconcile-by-stable-id merge described by the
specification (and implemented by `merge_children` in
`repo_sqlite.user_original.py`, the variant every in-repo caller and
`tests/test_salvataggi.py` target) leaves the stored row unchanged, while
the shipped code deletes that row (whose identifier IS in the incoming
set) and re-inserts a fresh row with `uid` and `pos` NULL, so the mirror
contents change even though the aggregate did not. -/
theorem c1_upsert_not_reconcile_by_id :
    RepoSqlite.reconcileAvvocati
      [("1/2025",
        { uid := some (.str "a"), pos := some (.num 0), ruolo := some (.str "referente"),
          email := some (.str "avv1@example.com"), nome := some (.str "Avv 1") })]
      "1/2025"
      [[("uid", .str "a"), ("ruolo", .str "referente"),
        ("email", .str "avv1@example.com"), ("nome", .str "Avv 1")]] =
      [("1/2025",
        { uid := some (.str "a"), pos := some (.num 0), ruolo := some (.str "referente"),
          email := some (.str "avv1@example.com"), nome := some (.str "Avv 1") })] ∧
    RepoSqlite.deletedAvvocati
      ⟨[], [("1/2025",
        { uid := some (.str "a"), pos := some (.num 0), ruolo := some (.str "referente"),
          email := some (.str "avv1@example.com"), nome := some (.str "Avv 1") })],
        [], [], [], []⟩ "1/2025" =
      [("1/2025",
        { uid := some (.str "a"), pos := some (.num 0), ruolo := some (.str "referente"),
          email := some (.str "avv1@example.com"), nome := some (.str "Avv 1") })] ∧
    (RepoSqlite.upsert_pratica
      ⟨[], [("1/2025",
        { uid := some (.str "a"), pos := some (.num 0), ruolo := some (.str "referente"),
          email := some (.str "avv1@example.com"), nome := some (.str "Avv 1") })],
        [], [], [], []⟩
      ⟨"1/2025", [],
        [[("uid", .str "a"), ("ruolo", .str "referente"),
          ("email", .str "avv1@example.com"), ("nome", .str "Avv 1")]],
        [], [], [], []⟩).pratica_avvocati =
      [("1/2025",
        { uid := none, pos := none, ruolo := some (.str "referente"),
          email := some (.str "avv1@example.com"), nome := some (.str "Avv 1") })] ∧
    (RepoSqlite.upsert_pratica
      ⟨[], [("1/2025",
        { uid := some (.str "a"), pos := some (.num 0), ruolo := some (.str "referente"),
          email := some (.str "avv1@example.com"), nome := some (.str "Avv 1") })],
        [], [], [], []⟩
      ⟨"1/2025", [],
        [[("uid", .str "a"), ("ruolo", .str "referente"),
          ("email", .str "avv1@example.com"), ("nome", .str "Avv 1")]],
        [], [], [], []⟩).pratica_avvocati ≠
      [("1/2025",
        { uid := some (.str "a"), pos := some (.num 0), ruolo := some (.str "referente"),
          email := some (.str "avv1@example.com"), nome := some (.str "Avv 1") })] := by
  decide

/-! ## Claim C7 — reindex hash comparison -/

/-- Counterexample to C7 as stated: a corpus of one canonical document
whose hash is already stored in the mirror is reported as zero inserts
and zero updates, but the upsert statement is still executed — the pass
performs one write, not none. -/
theorem c7_counterexample :
    (Reindex.reindex
      [⟨some [("id_pratica", J.str "1_2025")], "U", "P"⟩]
      [("1_2025",
        { nome := none, settore := none, materia := none, valore := none,
          updated_at := "U", path := "P",
          hash := Reindex.hashOf [("id_pratica", J.str "1_2025")] })]
      false).inserted = 0 ∧
    (Reindex.reindex
      [⟨some [("id_pratica", J.str "1_2025")], "U", "P"⟩]
      [("1_2025",
        { nome := none, settore := none, materia := none, valore := none,
          updated_at := "U", path := "P",
          hash := Reindex.hashOf [("id_pratica", J.str "1_2025")] })]
      false).updated = 0 ∧
    (Reindex.reindex
      [⟨some [("id_pratica", J.str "1_2025")], "U", "P"⟩]
      [("1_2025",
        { nome := none, settore := none, materia := none, valore := none,
          updated_at := "U", path := "P",
          hash := Reindex.hashOf [("id_pratica", J.str "1_2025")] })]
      false).writes = 1 ∧
    ¬ ((Reindex.reindex
      [⟨some [("id_pratica", J.str "1_2025")], "U", "P"⟩]
      [("1_2025",
        { nome := none, settore := none, materia := none, valore := none,
          updated_at := "U", path := "P",
          hash := Reindex.hashOf [("id_pratica", J.str "1_2025")] })]
      false).writes = 0) := by
  decide

/-- Looking a key up after replacing the rows bound to `id`. -/
theorem assocFind_replace {α : Type} (t : List (String × α)) (id id2 : String) (v : α) :
    RepoSqlite.assocFind (t.map (fun e => if e.1 = id then (id, v) else e)) id2 =
      if id2 = id then (RepoSqlite.assocFind t id).map (fun _ => v)
      else RepoSqlite.assocFind t id2 := by
  induction t with
  | nil => simp [RepoSqlite.assocFind]
  | cons e rest ih =>
    obtain ⟨k, w⟩ := e
    by_cases hk : k = id
    · subst hk
      by_cases h2 : id2 = k
      · subst h2
        simp [RepoSqlite.assocFind]
      · have h3 : ¬ (k = id2) := fun h => h2 h.symm
        simp [RepoSqlite.assocFind, h2, h3, ih]
    · by_cases h2 : k = id2
      · subst h2
        simp [RepoSqlite.assocFind, hk]
      · simp [RepoSqlite.assocFind, hk, h2, ih]

theorem assocFind_assocUpsert {α : Type} (t : List (String × α)) (id id2 : String)
    (v : α) (h : (RepoSqlite.assocFind t id).isSome) :
    RepoSqlite.assocFind (Reindex.assocUpsert t id v) id2 =
      if id2 = id then some v else RepoSqlite.assocFind t id2 := by
  unfold Reindex.assocUpsert
  rw [if_pos h]
  rw [assocFind_replace]
  by_cases h2 : id2 = id
  · subst h2
    obtain ⟨r, hr⟩ := Option.isSome_iff_exists.mp h
    simp [hr]
  · simp [h2]

/-- An unchanged corpus never bumps the counters: if every parsed
stored hash of every document matches its recomputed hash, the whole pass
reports the counters it started with. -/
theorem reindexGo_unchanged (corpus : List Reindex.CorpusFile) :
    ∀ st : Reindex.RState,
      (∀ f ∈ corpus, ∀ d, f.parsed = some d → Reindex.idOf d ≠ "" →
        ∃ r, RepoSqlite.assocFind st.table (Reindex.idOf d) = some r ∧
          r.hash = Reindex.hashOf d) →
      (Reindex.reindexGo st corpus).inserted = st.inserted ∧
      (Reindex.reindexGo st corpus).updated = st.updated := by
  induction corpus with
  | nil => intro st _; exact ⟨rfl, rfl⟩
  | cons f rest ih =>
    intro st h
    have hstep : Reindex.reindexGo st (f :: rest) =
        Reindex.reindexGo (Reindex.reindexStep st f) rest := rfl
    rw [hstep]
    cases hp : f.parsed with
    | none =>
      have hid : Reindex.reindexStep st f = st := by
        unfold Reindex.reindexStep
        rw [hp]
      rw [hid]
      exact ih st (fun g hg => h g (List.mem_cons_of_mem f hg))
    | some d =>
      by_cases hid : Reindex.idOf d = ""
      · have hsame : Reindex.reindexStep st f = st := by
          unfold Reindex.reindexStep
          rw [hp]
          simp [hid]
        rw [hsame]
        exact ih st (fun g hg => h g (List.mem_cons_of_mem f hg))
      · obtain ⟨r, hr, hrh⟩ := h f (List.mem_cons_self f rest) d hp hid
        have hrowSome : (RepoSqlite.assocFind st.table (Reindex.idOf d)).isSome := by
          rw [hr]; rfl
        have hstep2 : Reindex.reindexStep st f =
            { table := Reindex.assocUpsert st.table (Reindex.idOf d) (Reindex.rowOf d f)
              writes := st.writes + 1
              inserted := st.inserted
              updated := st.updated } := by
          unfold Reindex.reindexStep
          rw [hp]
          simp only [hid, if_false, hr]
          simp [hrh]
        rw [hstep2]
        refine ih _ ?_
        intro g hg d2 hp2 hid2
        obtain ⟨r2, hr2, hrh2⟩ := h g (List.mem_cons_of_mem f hg) d2 hp2 hid2
        by_cases heq : Reindex.idOf d2 = Reindex.idOf d
        · refine ⟨Reindex.rowOf d f, ?_, ?_⟩
          · dsimp only
            rw [assocFind_assocUpsert st.table _ _ _ hrowSome, if_pos heq]
          · have : r2 = r := by
              rw [heq] at hr2
              rw [hr2] at hr
              exact Option.some.inj hr.symm ▸ rfl
            have hhh : r2.hash = Reindex.hashOf d2 := hrh2
            have hhh2 : r2.hash = Reindex.hashOf d := by rw [this, hrh]
            show (Reindex.rowOf d f).hash = Reindex.hashOf d2
            rw [show (Reindex.rowOf d f).hash = Reindex.hashOf d from rfl]
            rw [← hhh2, hhh]
        · refine ⟨r2, ?_, hrh2⟩
          dsimp only
          rw [assocFind_assocUpsert st.table _ _ _ hrowSome, if_neg heq]
          exact hr2

/-- C7 as amended: reindex computes a content hash over the stably-sorted
serialization and compares it with the stored hash; an unchanged document
is merely NOT COUNTED (the upsert statement is executed regardless, a
value-identical write), so a rerun over an unmodified corpus reports zero
inserts and zero updates; malformed documents are skipped with a warning
and never abort the pass. -/
theorem c7_reindex_amended (corpus : List Reindex.CorpusFile)
    (table : List (String × Reindex.IndexRow))
    (hunch : ∀ f ∈ corpus, ∀ d, f.parsed = some d → Reindex.idOf d ≠ "" →
      ∃ r, RepoSqlite.assocFind table (Reindex.idOf d) = some r ∧
        r.hash = Reindex.hashOf d) :
    ((Reindex.reindex corpus table false).inserted = 0 ∧
      (Reindex.reindex corpus table false).updated = 0) ∧
    (∀ st bad rest, bad.parsed = none →
      Reindex.reindexGo st (bad :: rest) = Reindex.reindexGo st rest) := by
  constructor
  · exact reindexGo_unchanged corpus ⟨table, 0, 0, 0⟩ hunch
  · intro st bad rest hbad
    have : Reindex.reindexStep st bad = st := by
      unfold Reindex.reindexStep
      rw [hbad]
    show Reindex.reindexGo (Reindex.reindexStep st bad) rest = Reindex.reindexGo st rest
    rw [this]

/-- Witness for C7 (amended) on a one-document corpus whose hash is
already stored. -/
theorem c7_witness :
    (∀ f ∈ [(⟨some [("id_pratica", J.str "1_2025")], "U", "P"⟩ : Reindex.CorpusFile)],
      ∀ d, f.parsed = some d → Reindex.idOf d ≠ "" →
      ∃ r, RepoSqlite.assocFind
          [("1_2025",
            ({ nome := none, settore := none, materia := none, valore := none,
               updated_at := "U", path := "P",
               hash := Reindex.hashOf [("id_pratica", J.str "1_2025")] } : Reindex.IndexRow))]
          (Reindex.idOf d) = some r ∧ r.hash = Reindex.hashOf d) ∧
    (Reindex.reindex
      [⟨some [("id_pratica", J.str "1_2025")], "U", "P"⟩]
      [("1_2025",
        { nome := none, settore := none, materia := none, valore := none,
          updated_at := "U", path := "P",
          hash := Reindex.hashOf [("id_pratica", J.str "1_2025")] })]
      false).inserted = 0 := by
  have hh : ∀ f ∈ [(⟨some [("id_pratica", J.str "1_2025")], "U", "P"⟩ : Reindex.CorpusFile)],
      ∀ d, f.parsed = some d → Reindex.idOf d ≠ "" →
      ∃ r, RepoSqlite.assocFind
          [("1_2025",
            ({ nome := none, settore := none, materia := none, valore := none,
               updated_at := "U", path := "P",
               hash := Reindex.hashOf [("id_pratica", J.str "1_2025")] } : Reindex.IndexRow))]
          (Reindex.idOf d) = some r ∧ r.hash = Reindex.hashOf d := by
    intro f hf d hp hid
    rw [List.mem_singleton.mp hf] at hp
    cases Option.some.inj hp
    exact ⟨{ nome := none, settore := none, materia := none, valore := none,
             updated_at := "U", path := "P",
             hash := Reindex.hashOf [("id_pratica", J.str "1_2025")] }, by decide, by decide⟩
  exact ⟨hh, (c7_reindex_amended _ _ hh).1.1⟩

/-! ## Claim C5 — dry-run reporting -/

/-- C5: the code is at odds with the claim (and with its own `--dry-run`
help text, "stampa solo il piano"): at a folder with two timestamped
backups under `keep_last = 1`, the deletion plan computed internally is
the same in both modes and a dry run touches no file, but the dry-run
result reports `deleted = 0`, `bytes_freed = 0`, `deleted_files = []`
instead of the plan, while the apply run reports the plan it executed. -/
theorem c5_dry_run_report :
    Retention.retentionPlan [⟨"a.json", 2000, 5⟩, ⟨"b.json", 1000, 10⟩]
      ⟨true, 1, none, none, none, none⟩ 0
      (fun s => s.dt / 86400) (fun s => s.dt / 86400) (fun s => s.dt / 86400) =
      [⟨"b.json", 1000, 10⟩] ∧
    (Retention.enforce_retention_for_practice
      [⟨"a.json", 2000, 5⟩, ⟨"b.json", 1000, 10⟩]
      ⟨true, 1, none, none, none, none⟩ 0
      (fun s => s.dt / 86400) (fun s => s.dt / 86400) (fun s => s.dt / 86400)
      true).2 = [⟨"a.json", 2000, 5⟩, ⟨"b.json", 1000, 10⟩] ∧
    (Retention.enforce_retention_for_practice
      [⟨"a.json", 2000, 5⟩, ⟨"b.json", 1000, 10⟩]
      ⟨true, 1, none, none, none, none⟩ 0
      (fun s => s.dt / 86400) (fun s => s.dt / 86400) (fun s => s.dt / 86400)
      true).1 = ⟨1, 0, 0, []⟩ ∧
    (Retention.enforce_retention_for_practice
      [⟨"a.json", 2000, 5⟩, ⟨"b.json", 1000, 10⟩]
      ⟨true, 1, none, none, none, none⟩ 0
      (fun s => s.dt / 86400) (fun s => s.dt / 86400) (fun s => s.dt / 86400)
      false).1 = ⟨1, 1, 10, ["b.json"]⟩ ∧
    (Retention.enforce_retention_for_practice
      [⟨"a.json", 2000, 5⟩, ⟨"b.json", 1000, 10⟩]
      ⟨true, 1, none, none, none, none⟩ 0
      (fun s => s.dt / 86400) (fun s => s.dt / 86400) (fun s => s.dt / 86400)
      true).1 ≠
    (Retention.enforce_retention_for_practice
      [⟨"a.json", 2000, 5⟩, ⟨"b.json", 1000, 10⟩]
      ⟨true, 1, none, none, none, none⟩ 0
      (fun s => s.dt / 86400) (fun s => s.dt / 86400) (fun s => s.dt / 86400)
      false).1 := by
  decide

/-! ## Claim C6 — tiered retention -/

/-- Counterexample to C6 as stated: two snapshots of the same day under
`keep_last = 1, keep_days = 1`.  The newest is kept by `keep_last`; the
day pass skips it WITHOUT marking its day bucket as seen, so the older
same-day snapshot is also kept — and that kept snapshot satisfies no
tier: it is not among the 1 newest and it is not the newest of its day
bucket. -/
theorem c6_counterexample :
    Retention.retentionKeepSet [⟨"a", 1000, 1⟩, ⟨"b", 999, 1⟩]
      ⟨false, 1, some 1, none, none, none⟩ 0
      (fun s => s.dt / 86400) (fun s => s.dt / 86400) (fun s => s.dt / 86400) =
      ["a", "b"] ∧
    Retention.satisfiesTierSpec [⟨"a", 1000, 1⟩, ⟨"b", 999, 1⟩] 1 (some 1) none none
      (fun s => s.dt / 86400) (fun s => s.dt / 86400) (fun s => s.dt / 86400)
      ⟨"b", 999, 1⟩ = false := by
  decide

theorem selGo_length_le (b : Retention.Snap → Int) (limit : Nat) (kept : List String) :
    ∀ (items chosen : List Retention.Snap) (seen : List Int),
      chosen.length < limit →
      (Retention.selGo b limit kept items chosen seen).length ≤ limit := by
  intro items
  induction items with
  | nil =>
    intro chosen seen h
    simpa [Retention.selGo] using le_of_lt h
  | cons p rest ih =>
    intro chosen seen h
    by_cases h1 : p.name ∈ kept
    · simp only [Retention.selGo, if_pos h1]
      exact ih chosen seen h
    · by_cases h2 : b p ∈ seen
      · simp only [Retention.selGo, if_neg h1, if_pos h2]
        exact ih chosen seen h
      · simp only [Retention.selGo, if_neg h1, if_neg h2]
        by_cases h3 : limit ≤ (chosen ++ [p]).length
        · simp only [if_pos h3]
          simpa using h
        · simp only [if_neg h3]
          refine ih (chosen ++ [p]) _ ?_
          simp only [List.length_append, List.length_singleton] at h3 ⊢
          omega

theorem selGo_mem_not_kept (b : Retention.Snap → Int) (limit : Nat)
    (kept : List String) :
    ∀ (items chosen : List Retention.Snap) (seen : List Int),
      ∀ p ∈ Retention.selGo b limit kept items chosen seen,
        p ∈ chosen ∨ p.name ∉ kept := by
  intro items
  induction items with
  | nil =>
    intro chosen seen p hp
    rw [Retention.selGo] at hp
    exact Or.inl hp
  | cons q rest ih =>
    intro chosen seen p hp
    by_cases h1 : q.name ∈ kept
    · rw [Retention.selGo, if_pos h1] at hp
      exact ih chosen seen p hp
    · by_cases h2 : b q ∈ seen
      · rw [Retention.selGo, if_neg h1, if_pos h2] at hp
        exact ih chosen seen p hp
      · rw [Retention.selGo, if_neg h1, if_neg h2] at hp
        by_cases h3 : limit ≤ (chosen ++ [q]).length
        · rw [if_pos h3] at hp
          rcases List.mem_append.mp hp with h | h
          · exact Or.inl h
          · rw [List.mem_singleton.mp h]
            exact Or.inr h1
        · rw [if_neg h3] at hp
          rcases ih (chosen ++ [q]) _ p hp with h | h
          · rcases List.mem_append.mp h with h4 | h4
            · exact Or.inl h4
            · rw [List.mem_singleton.mp h4]
              exact Or.inr h1
          · exact Or.inr h

theorem select_newest_length_le (items : List Retention.Snap)
    (b : Retention.Snap → Int) (limit : Nat) (kept : List String) :
    (Retention.select_newest_per_bucket items b limit kept).length ≤ limit := by
  unfold Retention.select_newest_per_bucket
  by_cases h : limit = 0
  · simp [h]
  · rw [if_neg h]
    exact selGo_length_le b limit kept items [] [] (by simp; omega)

theorem select_newest_not_kept (items : List Retention.Snap)
    (b : Retention.Snap → Int) (limit : Nat) (kept : List String) :
    ∀ p ∈ Retention.select_newest_per_bucket items b limit kept, p.name ∉ kept := by
  intro p hp
  unfold Retention.select_newest_per_bucket at hp
  by_cases h : limit = 0
  · rw [if_pos h] at hp
    simp at hp
  · rw [if_neg h] at hp
    rcases selGo_mem_not_kept b limit kept items [] [] p hp with h2 | h2
    · simp at h2
    · exact h2

theorem tierPass_length_le (items : List Retention.Snap) (b : Retention.Snap → Int)
    (k : Option Int) (kept : List String) :
    (Retention.tierPass items b k kept).length ≤ Retention.tierLimit k := by
  cases k with
  | none => simp [Retention.tierPass, Retention.tierLimit]
  | some d =>
    simp only [Retention.tierPass, Retention.tierLimit]
    by_cases h : 0 < d
    · rw [if_pos h]
      exact select_newest_length_le items b d.toNat kept
    · rw [if_neg h]
      simp

/-- C6 as amended: the tiered keep-set always contains the `keep_last`
newest snapshots, each tier pass adds at most its configured number of
snapshots never re-keeping an already-kept file, and the kept-set size is
bounded by `N + D + W + M`; but an already-kept snapshot does NOT mark
its bucket as covered, so a bucket whose newest snapshot is already kept
can contribute a second, older snapshot — hence a kept snapshot need not
satisfy any tier in the sense of the specification (see the counterexample). -/
theorem c6_tiered_amended (items : List Retention.Snap) (N : Nat)
    (kd kw km : Option Int) (dayB weekB monthB : Retention.Snap → Int) :
    (∀ nm ∈ Retention.tieredK0 (Retention.sortDesc items) N,
        nm ∈ Retention.tieredKeep (Retention.sortDesc items) N kd kw km
          dayB weekB monthB) ∧
    (Retention.tieredKeep (Retention.sortDesc items) N kd kw km
        dayB weekB monthB).length ≤
      N + Retention.tierLimit kd + Retention.tierLimit kw + Retention.tierLimit km ∧
    (∀ b lim kept, ∀ p ∈ Retention.select_newest_per_bucket
        (Retention.sortDesc items) b lim kept, p.name ∉ kept) ∧
    (∀ nm ∈ Retention.tieredKeep (Retention.sortDesc items) N kd kw km
        dayB weekB monthB,
      nm ∈ Retention.tieredK0 (Retention.sortDesc items) N ∨
      nm ∈ (Retention.tierPass (Retention.sortDesc items) dayB kd
        (Retention.tieredK0 (Retention.sortDesc items) N)).map (·.name) ∨
      nm ∈ (Retention.tierPass (Retention.sortDesc items) weekB kw
        (Retention.tieredK1 (Retention.sortDesc items) N kd dayB)).map (·.name) ∨
      nm ∈ (Retention.tierPass (Retention.sortDesc items) monthB km
        (Retention.tieredK2 (Retention.sortDesc items) N kd kw dayB weekB)).map
          (·.name)) := by
  refine ⟨?_, ?_, ?_, ?_⟩
  · intro nm hm
    unfold Retention.tieredKeep Retention.tieredK2 Retention.tieredK1
    exact List.mem_append_left _ (List.mem_append_left _ (List.mem_append_left _ hm))
  · have h0 : (Retention.tieredK0 (Retention.sortDesc items) N).length ≤ N := by
      unfold Retention.tieredK0
      simp [List.length_take]
    have h1 := tierPass_length_le (Retention.sortDesc items) dayB kd
      (Retention.tieredK0 (Retention.sortDesc items) N)
    have hk1 : (Retention.tieredK1 (Retention.sortDesc items) N kd dayB).length ≤
        N + Retention.tierLimit kd := by
      unfold Retention.tieredK1
      simp only [List.length_append, List.length_map]
      omega
    have h2 := tierPass_length_le (Retention.sortDesc items) weekB kw
      (Retention.tieredK1 (Retention.sortDesc items) N kd dayB)
    have hk2 : (Retention.tieredK2 (Retention.sortDesc items) N kd kw dayB weekB).length ≤
        N + Retention.tierLimit kd + Retention.tierLimit kw := by
      unfold Retention.tieredK2
      simp only [List.length_append, List.length_map]
      omega
    have h3 := tierPass_length_le (Retention.sortDesc items) monthB km
      (Retention.tieredK2 (Retention.sortDesc items) N kd kw dayB weekB)
    unfold Retention.tieredKeep
    simp only [List.length_append, List.length_map]
    omega
  · intro b lim kept
    exact select_newest_not_kept (Retention.sortDesc items) b lim kept
  · intro nm hm
    unfold Retention.tieredKeep Retention.tieredK2 Retention.tieredK1 at hm
    rcases List.mem_append.mp hm with h | h
    · rcases List.mem_append.mp h with h2 | h2
      · rcases List.mem_append.mp h2 with h3 | h3
        · exact Or.inl h3
        · exact Or.inr (Or.inl h3)
      · refine Or.inr (Or.inr (Or.inl ?_))
        unfold Retention.tieredK1
        exact h2
    · refine Or.inr (Or.inr (Or.inr ?_))
      unfold Retention.tieredK2 Retention.tieredK1
      exact h

/-- Witness for C6 (amended): 40 daily snapshots, `keep_last = 3,
keep_days = 7, keep_weeks = 4` — the newest snapshot is kept and the
kept-set size is within the `3 + 7 + 4` bound. -/
theorem c6_witness :
    "s39" ∈ Retention.tieredK0
      (Retention.sortDesc ((List.range 40).map
        (fun i => ⟨"s" ++ toString i, (i : Int) * 86400, 1⟩))) 3 ∧
    "s39" ∈ Retention.tieredKeep
      (Retention.sortDesc ((List.range 40).map
        (fun i => ⟨"s" ++ toString i, (i : Int) * 86400, 1⟩))) 3 (some 7) (some 4) none
      (fun s => s.dt / 86400) (fun s => s.dt / (86400 * 7)) (fun s => s.dt / 2592000) ∧
    (Retention.tieredKeep
      (Retention.sortDesc ((List.range 40).map
        (fun i => ⟨"s" ++ toString i, (i : Int) * 86400, 1⟩))) 3 (some 7) (some 4) none
      (fun s => s.dt / 86400) (fun s => s.dt / (86400 * 7)) (fun s => s.dt / 2592000)).length ≤
      3 + Retention.tierLimit (some 7) + Retention.tierLimit (some 4) +
        Retention.tierLimit none :=
  ⟨by decide,
    (c6_tiered_amended ((List.range 40).map
        (fun i => ⟨"s" ++ toString i, (i : Int) * 86400, 1⟩)) 3 (some 7) (some 4) none
      (fun s => s.dt / 86400) (fun s => s.dt / (86400 * 7)) (fun s => s.dt / 2592000)).1
      "s39" (by decide),
    (c6_tiered_amended ((List.range 40).map
        (fun i => ⟨"s" ++ toString i, (i : Int) * 86400, 1⟩)) 3 (some 7) (some 4) none
      (fun s => s.dt / 86400) (fun s => s.dt / (86400 * 7)) (fun s => s.dt / 2592000)).2.1⟩
